import Mathlib

/-!
Verification development for the square-terminal server (src/server.js).

The server keeps an in-memory profile store (array of profiles plus an
active-profile pointer), masks access tokens on read, caps per-profile
transaction logs at 50 entries, persists the store by serializing it to an
environment variable (optionally PUTting it to the Render API), guards its
API behind expiring in-memory sessions, and onboards merchants through a
Square OAuth authorization-code exchange.

The JavaScript handlers are embedded shallowly: JS objects become Lean
structures, JS arrays become lists, request handlers become pure functions
from the store and the request (plus the outcomes of external effects,
passed as parameters) to the new store and a structured response.
Machine-level JS numbers are modelled as `Rat`.
-/

namespace SquareTerminal

/-- JSON-like values, modelling the JavaScript objects the server builds
(transaction records and the serialized store). -/
inductive Json where
  | null
  | bool (b : Bool)
  | num (q : Rat)
  | str (s : String)
  | arr (elems : List Json)
  | obj (fields : List (String × Json))
deriving Repr

/-- JS truthiness of a string: the empty string is falsy, every other
string is truthy. -/
def truthyStr (s : String) : Bool := !(s == "")

/-- JS truthiness of a possibly absent string (`undefined`/`null` are
falsy, so is the empty string). -/
def truthyOptStr : Option String → Bool
  | none => false
  | some s => truthyStr s

/-- JS `v || d` for string-valued `v`: the default is used when `v` is
absent or falsy (empty). -/
def jsOrStr : Option String → String → String
  | some s, d => if s == "" then d else s
  | none, d => d

/-- JS `String.prototype.slice(0, n)`. -/
def strTake (s : String) (n : Nat) : String := ⟨s.data.take n⟩

/-- JS `String.prototype.slice(-n)` (for `n ≤ s.length`): the last `n`
characters. -/
def strTakeRight (s : String) (n : Nat) : String :=
  ⟨s.data.drop (s.data.length - n)⟩

/-- `maskToken` (server.js:350-353):
`if (!t || t.length < 8) return '••••••••'; return t.slice(0,4) + '••••••••' + t.slice(-4);`.
For a string argument `!t` is exactly `t = ""`. -/
def maskToken (t : String) : String :=
  if !(truthyStr t) || t.length < 8 then "••••••••"
  else strTake t 4 ++ "••••••••" ++ strTakeRight t 4

/-- A merchant profile (the objects held in `store.profiles`).
`maxAmount` is `null` or a number in JS, hence `Option Rat`;
`transactions` is the bounded most-recent-first transaction log. -/
structure Profile where
  id : String
  name : String
  accessToken : String
  applicationId : String
  locationId : String
  maxAmount : Option Rat
  transactions : List Json
deriving Repr

/-- The profile store: `{ activeId, profiles }` (server.js:278-298). -/
structure Store where
  activeId : String
  profiles : List Profile
deriving Repr

/-- The ids of the profiles in the store, in array order. -/
def ids (s : Store) : List String := s.profiles.map (fun p => p.id)

/-- Well-formedness of the store: at least one profile, pairwise distinct
profile ids (ids are v4 UUIDs in the server), and an `activeId` that
resolves to a stored profile. `loadProfiles`'s default store satisfies
this, and the theorems below show every handler preserves it. -/
def wf (s : Store) : Bool :=
  !s.profiles.isEmpty && decide (ids s).Nodup && decide (s.activeId ∈ ids s)

/-- `activeProfile` (server.js:340-342):
`store.profiles.find(p => p.id === store.activeId) || store.profiles[0]`.
`none` models the `undefined` a JS caller would get from an empty store. -/
def activeProfile (s : Store) : Option Profile :=
  match s.profiles.find? (fun p => p.id == s.activeId) with
  | some p => some p
  | none => s.profiles.head?

/-- Replace the first list entry satisfying `f` by its image under `g`;
this models JS code that `find`s an object in an array and mutates it
in place. -/
def updateFirst (f : Profile → Bool) (g : Profile → Profile) :
    List Profile → List Profile
  | [] => []
  | p :: ps => if f p then g p :: ps else p :: updateFirst f g ps

/-- Core of `addTransaction` (server.js:355-361) acting on one profile's
transaction array: `p.transactions.unshift(tx); if (p.transactions.length > 50)
p.transactions = p.transactions.slice(0, 50);`. -/
def addTransactionList (txs : List Json) (tx : Json) : List Json :=
  if (tx :: txs).length > 50 then (tx :: txs).take 50 else tx :: txs

/-- `addTransaction(profileId, tx)` (server.js:355-361): find the profile
by id (silently a no-op when absent) and prepend `tx` to its capped
transaction log. The `if (!p.transactions) p.transactions = []` repair is
the identity here because the model's transaction list is always present. -/
def addTransaction (s : Store) (profileId : String) (tx : Json) : Store :=
  match s.profiles.find? (fun p => p.id == profileId) with
  | none => s
  | some _ =>
    { s with
      profiles := updateFirst (fun p => p.id == profileId)
        (fun p => { p with transactions := addTransactionList p.transactions tx })
        s.profiles }

/-- Escape one character for a JSON string literal, as `JSON.stringify`
does for the characters the server's data can contain. -/
def escapeChar (c : Char) : String :=
  if c = '"' then "\\\""
  else if c = '\\' then "\\\\"
  else if c = '\n' then "\\n"
  else if c = '\r' then "\\r"
  else if c = '\t' then "\\t"
  else String.singleton c

/-- A JSON string literal with its quotes and escapes. -/
def quoteString (s : String) : String :=
  "\"" ++ String.join (s.data.map escapeChar) ++ "\""

/-- Decimal rendering of a JSON number. JS renders doubles in
shortest-round-trip decimal; the server's numbers are money amounts, and
the exact digit string is irrelevant to the claims, so non-integers are
rendered as exact fractions. -/
def jnumToString (q : Rat) : String :=
  if q.den = 1 then toString q.num
  else toString q.num ++ "/" ++ toString q.den

mutual

/-- `JSON.stringify` on the modelled values. -/
def Json.stringify : Json → String
  | .null => "null"
  | .bool true => "true"
  | .bool false => "false"
  | .num q => jnumToString q
  | .str s => quoteString s
  | .arr elems => "[" ++ stringifyElems elems ++ "]"
  | .obj fields => "\x7b" ++ stringifyFields fields ++ "\x7d"

/-- Comma-separated array elements. -/
def Json.stringifyElems : List Json → String
  | [] => ""
  | [x] => x.stringify
  | x :: y :: rest => x.stringify ++ "," ++ stringifyElems (y :: rest)

/-- Comma-separated `"key":value` object fields. -/
def Json.stringifyFields : List (String × Json) → String
  | [] => ""
  | [kv] => quoteString kv.1 ++ ":" ++ kv.2.stringify
  | kv :: kv' :: rest =>
    quoteString kv.1 ++ ":" ++ kv.2.stringify ++ "," ++ stringifyFields (kv' :: rest)

end

/-- A profile as a JSON object, fields in the insertion order the server
creates them with. -/
def profileToJson (p : Profile) : Json :=
  .obj [("id", .str p.id), ("name", .str p.name),
        ("accessToken", .str p.accessToken),
        ("applicationId", .str p.applicationId),
        ("locationId", .str p.locationId),
        ("maxAmount", match p.maxAmount with | none => .null | some q => .num q),
        ("transactions", .arr p.transactions)]

/-- The store as a JSON object (`JSON.stringify(store)`'s input). -/
def storeToJson (s : Store) : Json :=
  .obj [("activeId", .str s.activeId),
        ("profiles", .arr (s.profiles.map profileToJson))]

/-- `JSON.stringify(store)`: the single JSON string both persistence sinks
receive. -/
def stringifyStore (s : Store) : String := (storeToJson s).stringify

/-- The environment the server reads at startup (server.js:113-121 and the
`SQUARE_*` variables). Values with a JS-side default are stored resolved. -/
structure Cfg where
  renderApiToken : Option String
  renderServiceId : Option String
  appPassword : String
  sessionSecret : String
  baseUrl : String
  squareAccessToken : Option String
  squareApplicationId : Option String
  squareLocationId : Option String
  sqClientId : String
  sqClientSecret : String
deriving Repr

/-- The `envVars` array `persistProfiles` PUTs to the Render API
(server.js:304-316), as key/value pairs. -/
def renderEnvVars (cfg : Cfg) (s : Store) : List (String × String) :=
  [("PROFILES_JSON", stringifyStore s),
   ("RENDER_API_TOKEN", cfg.renderApiToken.getD ""),
   ("RENDER_SERVICE_ID", cfg.renderServiceId.getD ""),
   ("APP_PASSWORD", cfg.appPassword),
   ("SESSION_SECRET", cfg.sessionSecret),
   ("BASE_URL", cfg.baseUrl),
   ("SQUARE_ACCESS_TOKEN", cfg.squareAccessToken.getD ""),
   ("SQUARE_APPLICATION_ID", cfg.squareApplicationId.getD ""),
   ("SQUARE_LOCATION_ID", cfg.squareLocationId.getD ""),
   ("SQ_CLIENT_ID", cfg.sqClientId),
   ("SQ_CLIENT_SECRET", cfg.sqClientSecret)]

/-- The externally visible effects of one `persistProfiles` call:
the value written to `process.env.PROFILES_JSON`, and the body of the
`PUT api.render.com/v1/services/:id/env-vars` request when one is issued. -/
structure PersistEffects where
  envStash : String
  remotePut : Option String
deriving Repr

/-- `persistProfiles` (server.js:300-338): always stash
`JSON.stringify(store)` in `process.env.PROFILES_JSON`; then
`if (!RENDER_API_TOKEN || !RENDER_SERVICE_ID) return;` else PUT the
`envVars` array to the Render API. -/
def persistProfiles (cfg : Cfg) (s : Store) : PersistEffects :=
  { envStash := stringifyStore s
    remotePut :=
      if !(truthyOptStr cfg.renderApiToken) || !(truthyOptStr cfg.renderServiceId) then
        none
      else
        some (Json.stringify (.arr ((renderEnvVars cfg s).map
          (fun kv => .obj [("key", .str kv.1), ("value", .str kv.2)])))) }

/-- Outcome of one `persistProfiles()` call as seen by a handler's
`try`/`catch`: resolved, or rejected with an error message. -/
inductive PersistResult where
  | ok
  | fail (msg : String)
deriving Repr, DecidableEq

/-- Structured HTTP response of the profile-mutating endpoints: either an
error status with a message, or `{ success: true }`, optionally with a
`warning` field. -/
inductive ApiOutcome where
  | err (status : Nat) (msg : String)
  | ok (warning : Option String)
deriving Repr, DecidableEq

/-- The `try { await persistProfiles(); res.json({success:true}) }
catch (e) { res.json({success:true, warning: e.message}) }` pattern of the
create/update and delete handlers. -/
def persistOutcome : PersistResult → ApiOutcome
  | .ok => .ok none
  | .fail m => .ok (some m)

/-- `POST /api/profiles/:id/activate` (server.js:458-465). Persist errors
are swallowed (`try { await persistProfiles(); } catch {}`), so the
response carries no warning. -/
def activateProfile (s : Store) (pid : String) : Store × ApiOutcome :=
  match s.profiles.find? (fun p => p.id == pid) with
  | none => (s, .err 404 "Not found")
  | some p => ({ s with activeId := p.id }, .ok none)

/-- Request body of `POST /api/profiles`. A missing or empty (falsy)
string field is modelled as `""`; `maxAmount` is `none` when the raw field
is falsy (absent, `0`, `""`) and `some q` when it is truthy and parses to
`q` (so `maxAmount: "0"` is `some 0`). -/
structure UpsertReq where
  id : String
  name : String
  accessToken : String
  applicationId : String
  locationId : String
  maxAmount : Option Rat
deriving Repr

/-- `POST /api/profiles` (server.js:467-483): validate, then update the
profile found by `id` in place, or push a new profile with a fresh UUID
(`freshId`); finally persist, reporting success even when persistence
fails. -/
def postProfiles (s : Store) (r : UpsertReq) (freshId : String)
    (persist : PersistResult) : Store × ApiOutcome :=
  if !(truthyStr r.name) || !(truthyStr r.applicationId) || !(truthyStr r.locationId) then
    (s, .err 400 "name, applicationId and locationId are required")
  else if truthyStr r.id then
    match s.profiles.find? (fun p => p.id == r.id) with
    | none => (s, .err 404 "Not found")
    | some _ =>
      ({ s with
          profiles := updateFirst (fun p => p.id == r.id)
            (fun p =>
              { p with
                name := r.name, applicationId := r.applicationId,
                locationId := r.locationId, maxAmount := r.maxAmount,
                accessToken := if truthyStr r.accessToken then r.accessToken else p.accessToken })
            s.profiles },
       persistOutcome persist)
  else if !(truthyStr r.accessToken) then
    (s, .err 400 "accessToken is required")
  else
    ({ s with
        profiles := s.profiles ++
          [{ id := freshId, name := r.name, accessToken := r.accessToken,
             applicationId := r.applicationId, locationId := r.locationId,
             maxAmount := r.maxAmount, transactions := [] }] },
     persistOutcome persist)

/-- `DELETE /api/profiles/:id` (server.js:485-494). When the deleted id
was active, `store.activeId = store.profiles[0].id` reads the head of the
filtered array; `none` models the `TypeError` JS would throw if that array
were empty (impossible for well-formed stores, as proved below). -/
def deleteProfile (s : Store) (pid : String) (persist : PersistResult) :
    Option (Store × ApiOutcome) :=
  if s.profiles.length ≤ 1 then
    some (s, .err 400 "Cannot delete last profile")
  else if s.activeId == pid then
    match (s.profiles.filter (fun p => !(p.id == pid))).head? with
    | none => none
    | some p0 =>
      some ({ activeId := p0.id, profiles := s.profiles.filter (fun p => !(p.id == pid)) },
            persistOutcome persist)
  else
    some ({ s with profiles := s.profiles.filter (fun p => !(p.id == pid)) },
          persistOutcome persist)

/-- JS `Math.round` (round half toward positive infinity). -/
def jsRound (q : Rat) : Int := ⌊q + 1/2⌋

/-- The guard `profile.maxAmount && parseFloat(amount) > profile.maxAmount`
(server.js:612 and 631): `maxAmount` must be truthy as a JS number — not
`null` and not `0` — and strictly exceeded. -/
def overLimit (maxAmount : Option Rat) (a : Rat) : Bool :=
  match maxAmount with
  | none => false
  | some m => !(m == 0) && decide (a > m)

/-- How a charge / payment-link request is dispatched. -/
inductive PayOutcome where
  | badRequest (msg : String)
  | limitRejected (limit : Rat)
  | forward (amountCents : Int)
deriving Repr, DecidableEq

/-- `POST /api/charge` body, reduced to the fields the dispatch logic
reads: `sourceId` (`""` = falsy) and `amount` (`none` = falsy,
`some a` = truthy with `parseFloat(amount) = a`). -/
structure ChargeReq where
  sourceId : String
  amount : Option Rat
deriving Repr

/-- Dispatch of `POST /api/charge` (server.js:608-615): reject 400 when
`!sourceId || !amount`; reject 400 when the active profile's `maxAmount`
is truthy and exceeded; otherwise forward
`Math.round(parseFloat(amount) * 100)` cents to `createPayment`.
`none` models the crash of `activeProfile()` on an empty store. -/
def chargeHandler (s : Store) (r : ChargeReq) : Option PayOutcome :=
  match r.amount with
  | none => some (.badRequest "sourceId and amount required")
  | some a =>
    if !(truthyStr r.sourceId) then some (.badRequest "sourceId and amount required")
    else
      (activeProfile s).map (fun profile =>
        if overLimit profile.maxAmount a then .limitRejected (profile.maxAmount.getD 0)
        else .forward (jsRound (a * 100)))

/-- `POST /api/payment-link` body, reduced to the dispatch-relevant field. -/
structure LinkReq where
  amount : Option Rat
deriving Repr

/-- Dispatch of `POST /api/payment-link` (server.js:627-635): reject 400
when `!amount`; reject 400 on the same `maxAmount` guard; otherwise
forward the rounded cent amount to `createPaymentLink`. -/
def paymentLinkHandler (s : Store) (r : LinkReq) : Option PayOutcome :=
  match r.amount with
  | none => some (.badRequest "amount required")
  | some a =>
    (activeProfile s).map (fun profile =>
      if overLimit profile.maxAmount a then .limitRejected (profile.maxAmount.getD 0)
      else .forward (jsRound (a * 100)))

/-- Session lifetime: `12 * 60 * 60 * 1000` milliseconds (server.js:137). -/
def SESSION_MS : Nat := 12 * 60 * 60 * 1000

/-- `isValidSession(token)` (server.js:133-142) over the in-memory
`sessions` map (modelled as an association list `token → createdAt`) at
time `now`; returns the verdict together with the updated map, since
checking an expired token deletes it. `token` is `none` when neither the
cookie nor the header carried one. With `Nat` subtraction a `createdAt`
in the future yields `now - createdAt = 0`, matching the JS negative
difference: the session is accepted. -/
def isValidSession (sessions : List (String × Nat)) (now : Nat)
    (token : Option String) : Bool × List (String × Nat) :=
  match token with
  | none => (false, sessions)
  | some t =>
    if !(truthyStr t) then (false, sessions)
    else
      match sessions.lookup t with
      | none => (false, sessions)
      | some createdAt =>
        if now - createdAt > SESSION_MS then
          (false, sessions.eraseP (fun kv => kv.1 == t))
        else (true, sessions)

/-- What the `requireAuth` middleware does with a request: pass it to the
endpoint handler, or answer 401 itself. -/
inductive AuthDecision where
  | next
  | unauthorized401
deriving Repr, DecidableEq

/-- `requireAuth` (server.js:145-149): call the guarded handler exactly
when `isValidSession(token)`, else respond
`401 { error: 'Unauthorized' }` without invoking it. -/
def requireAuth (sessions : List (String × Nat)) (now : Nat)
    (token : Option String) : AuthDecision × List (String × Nat) :=
  let v := isValidSession sessions now token
  (if v.1 then .next else .unauthorized401, v.2)

/-- A location object from `GET /v2/locations`, reduced to the fields the
OAuth callback reads. -/
structure SqLocation where
  id : String
  status : String
deriving Repr, DecidableEq

/-- `locations.find(l => l.status === 'ACTIVE') || locations[0]`
(server.js:247). -/
def oauthFirstLocation (locations : List SqLocation) : Option SqLocation :=
  match locations.find? (fun l => l.status == "ACTIVE") with
  | some l => some l
  | none => locations.head?

/-- The inputs of one `GET /auth/callback` run: the query parameters, the
pending-state lookup, and the bodies the three outbound Square calls
resolved with. -/
structure OAuthInput where
  errorParam : Option String
  stateData : Option String
  exchangeStatus : Nat
  exchangeMessage : Option String
  accessToken : String
  businessName : Option String
  locations : List SqLocation
deriving Repr

/-- Where the callback redirects the browser. -/
inductive OAuthRedirect where
  | error (msg : String)
  | success (name : String)
deriving Repr, DecidableEq

/-- The outbound Square calls the callback can issue, in issue order. -/
inductive SquareCall where
  | tokenExchange
  | getMerchant
  | getLocations
deriving Repr, DecidableEq

/-- The profile object the callback builds (server.js:252-260):
`applicationId` is `SQ_CLIENT_ID`, `maxAmount: null`, `transactions: []`. -/
def oauthNewProfile (freshId name accessToken clientId locId : String) : Profile :=
  { id := freshId, name := name, accessToken := accessToken,
    applicationId := clientId, locationId := locId,
    maxAmount := none, transactions := [] }

/-- `store.profiles.push(newProfile); if (store.profiles.length === 1)
store.activeId = newProfile.id;` (server.js:262-267). -/
def oauthAddProfile (s : Store) (p : Profile) : Store :=
  let profiles' := s.profiles ++ [p]
  if profiles'.length == 1 then { activeId := p.id, profiles := profiles' }
  else { s with profiles := profiles' }

/-- `GET /auth/callback` (server.js:194-275): bail out on an `error`
query parameter or an unknown `state`; exchange the authorization code
(one POST); on a non-200 exchange redirect with the error; otherwise issue
the two follow-up GETs (merchant, locations), build the new profile —
name `merchant.business_name || profileName`, location
`(active-or-first location).id || ''` — append it, auto-activate it when
it is the sole profile, and redirect to the success page. Returns the new
store, the redirect, and the outbound Square calls in issue order. -/
def oauthCallback (s : Store) (i : OAuthInput) (sqClientId : String)
    (freshId : String) : Store × OAuthRedirect × List SquareCall :=
  if truthyOptStr i.errorParam then (s, .error (i.errorParam.getD ""), [])
  else
    match i.stateData with
    | none => (s, .error "invalid_state", [])
    | some profileName =>
      if !(i.exchangeStatus == 200) then
        (s, .error (jsOrStr i.exchangeMessage "Token exchange failed"), [.tokenExchange])
      else
        let locId := jsOrStr ((oauthFirstLocation i.locations).map (fun l => l.id)) ""
        let p := oauthNewProfile freshId (jsOrStr i.businessName profileName)
          i.accessToken sqClientId locId
        (oauthAddProfile s p, .success p.name,
         [.tokenExchange, .getMerchant, .getLocations])

/-- One row of the `GET /api/profiles` response (server.js:404-416): the
raw `accessToken` is not among its fields, only `accessTokenMasked`. -/
structure ProfileView where
  id : String
  name : String
  applicationId : String
  locationId : String
  accessTokenMasked : String
  maxAmount : Option Rat
  active : Bool
  transactionCount : Nat
deriving Repr

/-- The view of one profile in the listing. -/
def profileView (activeId : String) (p : Profile) : ProfileView :=
  { id := p.id, name := p.name, applicationId := p.applicationId,
    locationId := p.locationId,
    accessTokenMasked := maskToken p.accessToken,
    maxAmount := p.maxAmount,
    active := p.id == activeId,
    transactionCount := p.transactions.length }

/-- `GET /api/profiles` (server.js:404-416): `activeId` plus the mapped
profile views. -/
def listProfiles (s : Store) : String × List ProfileView :=
  (s.activeId, s.profiles.map (profileView s.activeId))

/-- The store mutations of the server, as abstract operations. Fresh
UUIDs drawn by `uuidv4()` appear as explicit `freshId` arguments. -/
inductive Op where
  | activate (pid : String)
  | upsert (r : UpsertReq) (freshId : String)
  | delete (pid : String)
  | oauthAdd (freshId name accessToken clientId locId : String)
  | addTx (pid : String) (tx : Json)

/-- The store transition each operation performs (responses dropped;
`none` is the delete handler's crash, shown unreachable below). -/
def applyOp (s : Store) : Op → Option Store
  | .activate pid => some (activateProfile s pid).1
  | .upsert r freshId => some (postProfiles s r freshId .ok).1
  | .delete pid => (deleteProfile s pid .ok).map (fun x => x.1)
  | .oauthAdd freshId name tok cid loc =>
    some (oauthAddProfile s (oauthNewProfile freshId name tok cid loc))
  | .addTx pid tx => some (addTransaction s pid tx)

/-- Run a sequence of operations. -/
def applyOps (s : Store) : List Op → Option Store
  | [] => some s
  | op :: ops =>
    match applyOp s op with
    | none => none
    | some s' => applyOps s' ops

/-- The UUID freshness `uuidv4()` provides: an id pushed by an operation
is not already in the store. -/
def opFresh (s : Store) : Op → Bool
  | .upsert _ freshId => decide (freshId ∉ ids s)
  | .oauthAdd freshId _ _ _ _ => decide (freshId ∉ ids s)
  | _ => true

/-- Freshness along a whole run. -/
def freshAlong (s : Store) : List Op → Bool
  | [] => true
  | op :: ops =>
    opFresh s op &&
      (match applyOp s op with
       | none => true
       | some s' => freshAlong s' ops)

/-- Transform a response the way a caught persistence error does: success
responses gain the error message as a warning, error responses are
produced before `persistProfiles` runs and cannot change. -/
def withWarning (m : String) : ApiOutcome → ApiOutcome
  | .ok _ => .ok (some m)
  | o => o

/-- Sample profiles and stores used to instantiate the hypotheses of the
claim theorems on concrete inputs. -/
def sampleA : Profile :=
  { id := "a", name := "Shop A", accessToken := "sq0atp-aaaa0001",
    applicationId := "appA", locationId := "locA", maxAmount := none, transactions := [] }

def sampleB : Profile :=
  { id := "b", name := "Shop B", accessToken := "sq0atp-bbbb0002",
    applicationId := "appB", locationId := "locB", maxAmount := some 20, transactions := [] }

def sampleStore1 : Store := { activeId := "a", profiles := [sampleA] }

def sampleStore2 : Store := { activeId := "a", profiles := [sampleA, sampleB] }

/-- Sample configuration with the Render credentials present. -/
def sampleCfg : Cfg :=
  { renderApiToken := some "rnd-token", renderServiceId := some "srv-123",
    appPassword := "changeme", sessionSecret := "secret", baseUrl := "https://x.example",
    squareAccessToken := some "sq0atp-aaaa0001", squareApplicationId := some "appA",
    squareLocationId := some "locA", sqClientId := "client", sqClientSecret := "cs" }

/-- A store whose active profile has `maxAmount` set to `0`; reachable,
for example, by loading `PROFILES_JSON` with `maxAmount: 0` or by an
update request carrying `maxAmount: "0"`. -/
def zeroCapProfile : Profile :=
  { id := "z", name := "Zero Cap", accessToken := "sq0atp-zzzz0000",
    applicationId := "appZ", locationId := "locZ", maxAmount := some 0,
    transactions := [] }

def zeroCapStore : Store := { activeId := "z", profiles := [zeroCapProfile] }

theorem wf_iff (s : Store) :
    wf s = true ↔ s.profiles ≠ [] ∧ (ids s).Nodup ∧ s.activeId ∈ ids s := by
  simp [wf, List.isEmpty_iff, Bool.and_eq_true, and_assoc]

theorem wf_length (s : Store) (h : wf s = true) : 1 ≤ s.profiles.length := by
  rw [wf_iff] at h
  exact List.length_pos.mpr h.1

theorem updateFirst_map_id (f : Profile → Bool) (g : Profile → Profile)
    (hg : ∀ p, (g p).id = p.id) (l : List Profile) :
    (updateFirst f g l).map (fun p => p.id) = l.map (fun p => p.id) := by
  induction l with
  | nil => rfl
  | cons p ps ih =>
    cases hf : f p with
    | true => simp [updateFirst, hf, hg]
    | false => simp [updateFirst, hf, ih]

theorem wf_of_eq_ids (s s' : Store) (hact : s'.activeId = s.activeId)
    (hids : ids s' = ids s) (h : wf s = true) : wf s' = true := by
  rw [wf_iff] at h ⊢
  refine ⟨?_, hids ▸ h.2.1, by rw [hids, hact]; exact h.2.2⟩
  intro hnil
  have hids' : ids s' = [] := by simp [ids, hnil]
  rw [hids] at hids'
  exact h.1 (List.map_eq_nil_iff.mp hids')

theorem wf_activateProfile (s : Store) (pid : String) (h : wf s = true) :
    wf (activateProfile s pid).1 = true := by
  unfold activateProfile
  cases hf : s.profiles.find? (fun p => p.id == pid) with
  | none => exact h
  | some p =>
    rw [wf_iff] at h ⊢
    exact ⟨h.1, h.2.1, List.mem_map_of_mem _ (List.mem_of_find?_eq_some hf)⟩

theorem wf_push (s : Store) (p : Profile) (hfresh : p.id ∉ ids s) (h : wf s = true) :
    wf { s with profiles := s.profiles ++ [p] } = true := by
  rw [wf_iff] at h ⊢
  refine ⟨by simp, ?_, ?_⟩
  · simpa [ids, List.nodup_append] using ⟨h.2.1, by simpa [ids] using hfresh⟩
  · simp only [ids, List.map_append]
    exact List.mem_append_left _ h.2.2

theorem wf_postProfiles (s : Store) (r : UpsertReq) (fid : String) (pr : PersistResult)
    (hfresh : fid ∉ ids s) (h : wf s = true) :
    wf (postProfiles s r fid pr).1 = true := by
  unfold postProfiles
  split
  · exact h
  · split
    · cases hf : s.profiles.find? (fun p => p.id == r.id) with
      | none => exact h
      | some p =>
        have hids := updateFirst_map_id (fun q => q.id == r.id)
          (fun q =>
            { q with
              name := r.name, applicationId := r.applicationId,
              locationId := r.locationId, maxAmount := r.maxAmount,
              accessToken := if truthyStr r.accessToken then r.accessToken else q.accessToken })
          (fun q => rfl) s.profiles
        exact wf_of_eq_ids s _ rfl hids h
    · split
      · exact h
      · exact wf_push s _ (by simpa using hfresh) h

theorem wf_oauthAddProfile (s : Store) (p : Profile) (hfresh : p.id ∉ ids s)
    (h : wf s = true) : wf (oauthAddProfile s p) = true := by
  rw [wf_iff] at h
  simp only [oauthAddProfile]
  split
  · rw [wf_iff]
    refine ⟨by simp, ?_, ?_⟩
    · simpa [ids, List.nodup_append] using ⟨h.2.1, by simpa [ids] using hfresh⟩
    · simp [ids, List.map_append]
  · exact wf_push s p hfresh ((wf_iff s).mpr h)

theorem wf_addTransaction (s : Store) (pid : String) (tx : Json) (h : wf s = true) :
    wf (addTransaction s pid tx) = true := by
  unfold addTransaction
  cases hf : s.profiles.find? (fun p => p.id == pid) with
  | none => exact h
  | some p =>
    have hids := updateFirst_map_id (fun q => q.id == pid)
      (fun q => { q with transactions := addTransactionList q.transactions tx })
      (fun q => rfl) s.profiles
    exact wf_of_eq_ids s _ rfl hids h

theorem filter_ne_nil_of_nodup (s : Store) (pid : String) (h : wf s = true)
    (h2 : 2 ≤ s.profiles.length) :
    s.profiles.filter (fun p => !(p.id == pid)) ≠ [] := by
  rw [wf_iff] at h
  intro hnil
  have hall : ∀ p ∈ s.profiles, p.id = pid := by
    intro p hp
    have := List.filter_eq_nil_iff.mp hnil p hp
    simpa using this
  match hsp : s.profiles, h2 with
  | a :: b :: t, _ =>
    have hnd : (ids s).Nodup := h.2.1
    rw [show ids s = s.profiles.map (fun p => p.id) from rfl, hsp] at hnd
    have ha : a.id = pid := hall a (by rw [hsp]; exact List.mem_cons_self a _)
    have hb : b.id = pid :=
      hall b (by rw [hsp]; exact List.mem_cons_of_mem a (List.mem_cons_self b _))
    simp only [List.map_cons, List.nodup_cons, List.mem_cons] at hnd
    exact hnd.1 (Or.inl (ha.trans hb.symm))

theorem filtered_ids_nodup (s : Store) (pid : String) (h : wf s = true) :
    ((s.profiles.filter (fun p => !(p.id == pid))).map (fun p => p.id)).Nodup := by
  have hsub : ((s.profiles.filter (fun p => !(p.id == pid))).map (fun p => p.id)).Sublist
      (s.profiles.map (fun p => p.id)) :=
    (List.filter_sublist s.profiles).map _
  exact List.Nodup.sublist hsub ((wf_iff s).mp h).2.1

theorem deleteProfile_total_wf (s : Store) (pid : String) (pr : PersistResult)
    (h : wf s = true) :
    ∃ s' o, deleteProfile s pid pr = some (s', o) ∧ wf s' = true := by
  unfold deleteProfile
  split
  · exact ⟨s, _, rfl, h⟩
  case isFalse hgt =>
    have h2 : 2 ≤ s.profiles.length := by omega
    have hndrem := filtered_ids_nodup s pid h
    split
    case isTrue hact =>
      have hne : s.profiles.filter (fun p => !(p.id == pid)) ≠ [] :=
        filter_ne_nil_of_nodup s pid h h2
      cases hh : (s.profiles.filter (fun p => !(p.id == pid))).head? with
      | none => exact absurd (List.head?_eq_none_iff.mp hh) hne
      | some p0 =>
        refine ⟨_, _, rfl, ?_⟩
        rw [wf_iff]
        have hp0 : p0 ∈ s.profiles.filter (fun p => !(p.id == pid)) := by
          cases hc : s.profiles.filter (fun p => !(p.id == pid)) with
          | nil => rw [hc] at hh; simp at hh
          | cons x xs =>
            rw [hc] at hh
            simp only [List.head?_cons, Option.some.injEq] at hh
            rw [hh] at hc ⊢
            exact List.mem_cons_self p0 xs
        exact ⟨hne, hndrem, List.mem_map_of_mem _ hp0⟩
    case isFalse hact =>
      refine ⟨_, _, rfl, ?_⟩
      rw [wf_iff] at h ⊢
      obtain ⟨q, hq, hqid⟩ := List.mem_map.mp h.2.2
      have hqrem : q ∈ s.profiles.filter (fun p => !(p.id == pid)) := by
        refine List.mem_filter.mpr ⟨hq, ?_⟩
        have hne : s.activeId ≠ pid := by simpa using hact
        simp [hqid, hne]
      exact ⟨List.ne_nil_of_mem hqrem, hndrem, List.mem_map.mpr ⟨q, hqrem, hqid⟩⟩

theorem applyOp_total_wf (s : Store) (op : Op) (h : wf s = true)
    (hf : opFresh s op = true) :
    ∃ s', applyOp s op = some s' ∧ wf s' = true := by
  cases op with
  | activate pid => exact ⟨_, rfl, wf_activateProfile s pid h⟩
  | upsert r fid =>
    exact ⟨_, rfl, wf_postProfiles s r fid .ok (by simpa [opFresh] using hf) h⟩
  | delete pid =>
    obtain ⟨s', o, hdel, hwf⟩ := deleteProfile_total_wf s pid .ok h
    exact ⟨s', by simp [applyOp, hdel], hwf⟩
  | oauthAdd fid name tok cid loc =>
    exact ⟨_, rfl, wf_oauthAddProfile s _ (by simpa [opFresh, oauthNewProfile] using hf) h⟩
  | addTx pid tx => exact ⟨_, rfl, wf_addTransaction s pid tx h⟩

theorem applyOps_total_wf (s : Store) (ops : List Op) (h : wf s = true)
    (hf : freshAlong s ops = true) :
    ∃ s', applyOps s ops = some s' ∧ wf s' = true := by
  induction ops generalizing s with
  | nil => exact ⟨s, rfl, h⟩
  | cons op ops ih =>
    rw [freshAlong, Bool.and_eq_true] at hf
    obtain ⟨s', hs', hwf'⟩ := applyOp_total_wf s op h hf.1
    have hf2 := hf.2
    rw [hs'] at hf2
    have : applyOps s (op :: ops) = applyOps s' ops := by
      rw [applyOps, hs']
    rw [this]
    exact ih s' hwf' hf2


/-- C1: a DELETE for any id while the store holds exactly one profile is
answered 400 (`Cannot delete last profile`) with the store unchanged, and
any run of profile operations from a well-formed store keeps at least one
profile in the store. -/
theorem C1_store_never_empty :
    (∀ (s : Store) (pid : String) (pr : PersistResult), s.profiles.length = 1 →
        deleteProfile s pid pr = some (s, .err 400 "Cannot delete last profile")) ∧
    (∀ (s : Store) (ops : List Op), wf s = true → freshAlong s ops = true →
        ∃ s', applyOps s ops = some s' ∧ 1 ≤ s'.profiles.length) := by
  constructor
  · intro s pid pr h1
    unfold deleteProfile
    rw [if_pos (by omega)]
  · intro s ops h hf
    obtain ⟨s', h1, h2⟩ := applyOps_total_wf s ops h hf
    exact ⟨s', h1, wf_length s' h2⟩

/-- Witness for C1 at a one-profile store and at a two-profile store
running a delete followed by an activate. -/
theorem C1_store_never_empty_witness :
    deleteProfile sampleStore1 "a" .ok
        = some (sampleStore1, .err 400 "Cannot delete last profile") ∧
    (∃ s', applyOps sampleStore2 [Op.delete "b", Op.activate "a"] = some s' ∧
        1 ≤ s'.profiles.length) :=
  ⟨C1_store_never_empty.1 sampleStore1 "a" .ok (by decide),
   C1_store_never_empty.2 sampleStore2 [Op.delete "b", Op.activate "a"]
     (by decide) (by decide)⟩

/-- C2: every store mutation keeps `activeId` pointing at a stored
profile, and deleting the active profile reassigns `activeId` to the first
remaining profile. -/
theorem C2_activeId_always_resolves :
    (∀ (s : Store) (op : Op), wf s = true → opFresh s op = true →
        ∃ s', applyOp s op = some s' ∧ s'.activeId ∈ ids s') ∧
    (∀ (s : Store) (pid : String) (pr : PersistResult),
        wf s = true → s.activeId = pid → 2 ≤ s.profiles.length →
        ∃ p0, (s.profiles.filter (fun p => !(p.id == pid))).head? = some p0 ∧
          deleteProfile s pid pr =
            some ({ activeId := p0.id,
                    profiles := s.profiles.filter (fun p => !(p.id == pid)) },
                  persistOutcome pr)) := by
  constructor
  · intro s op h hfr
    obtain ⟨s', h1, h2⟩ := applyOp_total_wf s op h hfr
    exact ⟨s', h1, ((wf_iff s').mp h2).2.2⟩
  · intro s pid pr h hact h2
    have hne := filter_ne_nil_of_nodup s pid h h2
    unfold deleteProfile
    split
    case isTrue hle => exact absurd h2 (by omega)
    case isFalse hgt =>
      split
      case isFalse hcond => exact absurd (by simp [hact]) hcond
      case isTrue hcond =>
        cases hh : (s.profiles.filter (fun p => !(p.id == pid))).head? with
        | none => exact absurd (List.head?_eq_none_iff.mp hh) hne
        | some p0 => exact ⟨p0, rfl, rfl⟩

/-- Witness for C2: an activate on a two-profile store, and deletion of
the active profile "a" reassigning to the surviving profile "b". -/
theorem C2_activeId_always_resolves_witness :
    (∃ s', applyOp sampleStore2 (Op.activate "b") = some s' ∧ s'.activeId ∈ ids s') ∧
    (∃ p0, (sampleStore2.profiles.filter (fun p => !(p.id == "a"))).head? = some p0 ∧
        deleteProfile sampleStore2 "a" .ok =
          some ({ activeId := p0.id,
                  profiles := sampleStore2.profiles.filter (fun p => !(p.id == "a")) },
                persistOutcome .ok)) :=
  ⟨C2_activeId_always_resolves.1 sampleStore2 (Op.activate "b") (by decide) (by decide),
   C2_activeId_always_resolves.2 sampleStore2 "a" .ok (by decide) rfl (by decide)⟩

theorem addTransactionList_eq_take (txs : List Json) (tx : Json) :
    addTransactionList txs tx = (tx :: txs).take 50 := by
  unfold addTransactionList
  split
  · rfl
  case isFalse h => rw [List.take_of_length_le (by simp at h ⊢; omega)]

theorem foldl_addTransactionList (l x : List Json) :
    List.foldl addTransactionList (x.take 50) l = (l.reverse ++ x).take 50 := by
  induction l generalizing x with
  | nil => simp
  | cons t ts ih =>
    calc List.foldl addTransactionList (x.take 50) (t :: ts)
        = List.foldl addTransactionList ((t :: x).take 50) ts := by
          rw [List.foldl_cons, addTransactionList_eq_take]
          congr 1
          rw [show (50 : Nat) = 49 + 1 from rfl, List.take_succ_cons,
              List.take_succ_cons, List.take_take]
          norm_num
      _ = (ts.reverse ++ (t :: x)).take 50 := ih (t :: x)
      _ = ((t :: ts).reverse ++ x).take 50 := by simp

/-- C3: `addTransaction` prepends the new transaction and keeps only the
first 50: the head of the updated log is the new transaction, a log that
respected the 50-entry cap still respects it, at a full log the evicted
entry is exactly the last (oldest) one, and a log built from scratch is
the reverse-chronological list of the transactions added, truncated to
the 50 most recent. -/
theorem C3_transaction_log_capped :
    (∀ (txs : List Json) (tx : Json), (addTransactionList txs tx).head? = some tx) ∧
    (∀ (txs : List Json) (tx : Json), txs.length ≤ 50 →
        (addTransactionList txs tx).length ≤ 50) ∧
    (∀ (txs : List Json) (tx : Json), txs.length = 50 →
        addTransactionList txs tx = tx :: txs.dropLast) ∧
    (∀ l : List Json, List.foldl addTransactionList [] l = l.reverse.take 50) := by
  refine ⟨?_, ?_, ?_, ?_⟩
  · intro txs tx
    rw [addTransactionList_eq_take, show (50 : Nat) = 49 + 1 from rfl,
        List.take_succ_cons]
    rfl
  · intro txs tx h
    rw [addTransactionList_eq_take]
    simp [List.length_take]
  · intro txs tx h
    rw [addTransactionList_eq_take, show (50 : Nat) = 49 + 1 from rfl,
        List.take_succ_cons, List.dropLast_eq_take, h]
  · intro l
    have := foldl_addTransactionList l []
    simpa using this

/-- Witness for C3: a one-entry log and a full 50-entry log. -/
theorem C3_transaction_log_capped_witness :
    (addTransactionList [Json.num 1] (Json.num 2)).head? = some (Json.num 2) ∧
    (addTransactionList (List.replicate 50 (Json.num 1)) (Json.num 2)).length ≤ 50 ∧
    addTransactionList (List.replicate 50 (Json.num 1)) (Json.num 2)
        = Json.num 2 :: (List.replicate 50 (Json.num 1)).dropLast :=
  ⟨C3_transaction_log_capped.1 [Json.num 1] (Json.num 2),
   C3_transaction_log_capped.2.1 _ (Json.num 2) (by simp),
   C3_transaction_log_capped.2.2.1 _ (Json.num 2) (by simp)⟩

/-- C4: when `persistProfiles` rejects, `POST /api/profiles` and
`DELETE /api/profiles/:id` return the very same store as on successful
persistence (the in-memory mutation is not rolled back) and a response
that differs only by carrying the warning: every success stays
`success: true`. -/
theorem C4_persist_failure_keeps_mutation :
    (∀ (s : Store) (r : UpsertReq) (fid m : String),
        postProfiles s r fid (.fail m) =
          ((postProfiles s r fid .ok).1, withWarning m (postProfiles s r fid .ok).2)) ∧
    (∀ (s : Store) (pid m : String),
        deleteProfile s pid (.fail m) =
          (deleteProfile s pid .ok).map (fun x => (x.1, withWarning m x.2))) := by
  constructor
  · intro s r fid m
    unfold postProfiles
    split
    · rfl
    · split
      · cases s.profiles.find? (fun p => p.id == r.id) <;> rfl
      · split <;> rfl
  · intro s pid m
    unfold deleteProfile
    split
    · rfl
    · split
      · cases (s.profiles.filter (fun p => !(p.id == pid))).head? <;> rfl
      · rfl

/-- C5: each `persistProfiles` call serializes the whole store to the one
JSON string `JSON.stringify(store)`, always stashes that string in
`process.env.PROFILES_JSON`, and issues the Render env-vars PUT exactly
when both `RENDER_API_TOKEN` and `RENDER_SERVICE_ID` are configured
(truthy); the PUT body's `PROFILES_JSON` entry carries that same string. -/
theorem C5_persist_stash_and_put :
    ∀ (cfg : Cfg) (s : Store),
      (persistProfiles cfg s).envStash = stringifyStore s ∧
      ((persistProfiles cfg s).remotePut.isSome =
        (truthyOptStr cfg.renderApiToken && truthyOptStr cfg.renderServiceId)) ∧
      List.lookup "PROFILES_JSON" (renderEnvVars cfg s) = some (stringifyStore s) ∧
      ((truthyOptStr cfg.renderApiToken && truthyOptStr cfg.renderServiceId) = true →
        (persistProfiles cfg s).remotePut =
          some (Json.stringify (.arr ((renderEnvVars cfg s).map
            (fun kv => .obj [("key", .str kv.1), ("value", .str kv.2)]))))) := by
  intro cfg s
  refine ⟨rfl, ?_, by simp [renderEnvVars], ?_⟩
  · cases h1 : truthyOptStr cfg.renderApiToken <;>
      cases h2 : truthyOptStr cfg.renderServiceId <;>
        simp [persistProfiles, h1, h2]
  · intro hc
    rw [Bool.and_eq_true] at hc
    simp [persistProfiles, hc.1, hc.2]

/-- Witness for C5 at a fully configured environment. -/
theorem C5_persist_stash_and_put_witness :
    (persistProfiles sampleCfg sampleStore1).envStash = stringifyStore sampleStore1 ∧
    (persistProfiles sampleCfg sampleStore1).remotePut =
      some (Json.stringify (.arr ((renderEnvVars sampleCfg sampleStore1).map
        (fun kv => .obj [("key", .str kv.1), ("value", .str kv.2)])))) :=
  ⟨(C5_persist_stash_and_put sampleCfg sampleStore1).1,
   (C5_persist_stash_and_put sampleCfg sampleStore1).2.2.2 (by decide)⟩

/-- Counterexample to C6: the active profile's `maxAmount` is set
(to `0`) and the requested amount `5` exceeds it, yet both handlers
forward the charge instead of rejecting it: the JS guard
`profile.maxAmount && amount > profile.maxAmount` treats the set value
`0` as falsy. -/
theorem C6_counterexample_zero_cap :
    (activeProfile zeroCapStore).map Profile.maxAmount = some (some 0) ∧
    ((5 : Rat) > 0) ∧
    chargeHandler zeroCapStore { sourceId := "src", amount := some 5 }
        = some (.forward 500) ∧
    paymentLinkHandler zeroCapStore { amount := some 5 } = some (.forward 500) ∧
    chargeHandler zeroCapStore { sourceId := "src", amount := some 5 }
        ≠ some (.limitRejected 0) := by
  have hs : truthyStr "src" = true := by decide
  have hch : chargeHandler zeroCapStore { sourceId := "src", amount := some 5 }
      = some (.forward 500) := by
    simp [chargeHandler, hs, activeProfile, zeroCapStore, zeroCapProfile, overLimit]
    norm_num [jsRound]
  refine ⟨rfl, by norm_num, hch, ?_, ?_⟩
  · simp [paymentLinkHandler, activeProfile, zeroCapStore, zeroCapProfile, overLimit]
    norm_num [jsRound]
  · intro h
    rw [hch] at h
    simp at h

/-- C6 as amended: the guard fires exactly when `maxAmount` is set to a
non-zero value and strictly exceeded — then both endpoints reject with
400 and nothing is forwarded; in every other case (fields present) the
rounded cent amount is forwarded to the payments API. -/
theorem C6_amended_max_amount_guard :
    ∀ (s : Store) (p : Profile) (a : Rat) (r : ChargeReq) (rl : LinkReq),
      activeProfile s = some p → truthyStr r.sourceId = true →
      r.amount = some a → rl.amount = some a →
      ((∀ m, p.maxAmount = some m → m ≠ 0 → a > m →
          chargeHandler s r = some (.limitRejected m) ∧
          paymentLinkHandler s rl = some (.limitRejected m)) ∧
       (overLimit p.maxAmount a = false →
          chargeHandler s r = some (.forward (jsRound (a * 100))) ∧
          paymentLinkHandler s rl = some (.forward (jsRound (a * 100))))) := by
  intro s p a r rl hap hsrc hra hrla
  constructor
  · intro m hm hm0 hgt
    have hov : overLimit (some m) a = true := by
      simp [overLimit, hm0, hgt]
    constructor
    · simp [chargeHandler, hra, hsrc, hap, hm, hov]
    · simp [paymentLinkHandler, hrla, hap, hm, hov]
  · intro hov
    constructor
    · simp [chargeHandler, hra, hsrc, hap, hov]
    · simp [paymentLinkHandler, hrla, hap, hov]

/-- Witness for the amended C6: a non-zero cap of 20 rejects a charge of
25 on both endpoints. -/
theorem C6_amended_max_amount_guard_witness :
    chargeHandler { activeId := "b", profiles := [sampleA, sampleB] }
        { sourceId := "src", amount := some 25 } = some (.limitRejected 20) ∧
    paymentLinkHandler { activeId := "b", profiles := [sampleA, sampleB] }
        { amount := some 25 } = some (.limitRejected 20) :=
  (C6_amended_max_amount_guard { activeId := "b", profiles := [sampleA, sampleB] }
      sampleB 25 { sourceId := "src", amount := some 25 } { amount := some 25 }
      rfl rfl rfl rfl).1 20 rfl (by decide) (by decide)

theorem oauthAddProfile_spec (s : Store) (p : Profile) :
    (oauthAddProfile s p).profiles = s.profiles ++ [p] ∧
    (oauthAddProfile s p).activeId = (if s.profiles.isEmpty then p.id else s.activeId) := by
  unfold oauthAddProfile
  cases s.profiles with
  | nil => simp
  | cons a l => simp

/-- C7: on the success path (no error parameter, known state, 200 token
exchange) the callback issues the exchange and then the two follow-up
GETs, appends exactly one profile — token the granted `access_token`,
application id the OAuth client id, location the first ACTIVE location
falling back to the first location then `''`, no `maxAmount`, empty
transaction log — and activates it exactly when it is the sole profile. -/
theorem C7_oauth_callback_success :
    ∀ (s : Store) (i : OAuthInput) (cid fid pn : String),
      truthyOptStr i.errorParam = false → i.stateData = some pn →
      i.exchangeStatus = 200 →
      ∃ p : Profile,
        (oauthCallback s i cid fid).1.profiles = s.profiles ++ [p] ∧
        p.id = fid ∧
        p.accessToken = i.accessToken ∧
        p.applicationId = cid ∧
        p.maxAmount = none ∧
        p.transactions = [] ∧
        p.name = jsOrStr i.businessName pn ∧
        p.locationId = jsOrStr ((oauthFirstLocation i.locations).map (fun l => l.id)) "" ∧
        (oauthCallback s i cid fid).1.activeId
            = (if s.profiles.isEmpty then p.id else s.activeId) ∧
        (oauthCallback s i cid fid).2.1 = .success p.name ∧
        (oauthCallback s i cid fid).2.2 = [.tokenExchange, .getMerchant, .getLocations] := by
  intro s i cid fid pn herr hst hex
  have hcb : oauthCallback s i cid fid =
      (oauthAddProfile s (oauthNewProfile fid (jsOrStr i.businessName pn) i.accessToken cid
          (jsOrStr ((oauthFirstLocation i.locations).map (fun l => l.id)) "")),
       .success (jsOrStr i.businessName pn),
       [.tokenExchange, .getMerchant, .getLocations]) := by
    simp [oauthCallback, herr, hst, hex, oauthNewProfile]
  refine ⟨oauthNewProfile fid (jsOrStr i.businessName pn) i.accessToken cid
      (jsOrStr ((oauthFirstLocation i.locations).map (fun l => l.id)) ""), ?_⟩
  rw [hcb]
  refine ⟨(oauthAddProfile_spec s _).1, rfl, rfl, rfl, rfl, rfl, rfl, rfl,
    (oauthAddProfile_spec s _).2, rfl, rfl⟩

/-- Witness for C7 at a concrete input: a store with one profile and a
location list whose ACTIVE entry is not first. -/
theorem C7_oauth_callback_success_witness :
    ∃ p : Profile,
      (oauthCallback sampleStore1
          { errorParam := none, stateData := some "New Business",
            exchangeStatus := 200, exchangeMessage := none,
            accessToken := "sq0atp-newtok99", businessName := some "Acme",
            locations := [{ id := "L2", status := "INACTIVE" }, { id := "L1", status := "ACTIVE" }] }
          "client" "fresh-id").1.profiles = sampleStore1.profiles ++ [p] ∧
      p.id = "fresh-id" ∧
      p.accessToken = "sq0atp-newtok99" ∧
      p.applicationId = "client" ∧
      p.maxAmount = none ∧
      p.transactions = [] ∧
      p.name = jsOrStr (some "Acme") "New Business" ∧
      p.locationId = jsOrStr ((oauthFirstLocation
          [{ id := "L2", status := "INACTIVE" }, { id := "L1", status := "ACTIVE" }]).map
            (fun l => l.id)) "" ∧
      (oauthCallback sampleStore1
          { errorParam := none, stateData := some "New Business",
            exchangeStatus := 200, exchangeMessage := none,
            accessToken := "sq0atp-newtok99", businessName := some "Acme",
            locations := [{ id := "L2", status := "INACTIVE" }, { id := "L1", status := "ACTIVE" }] }
          "client" "fresh-id").1.activeId
          = (if sampleStore1.profiles.isEmpty then p.id else sampleStore1.activeId) ∧
      (oauthCallback sampleStore1
          { errorParam := none, stateData := some "New Business",
            exchangeStatus := 200, exchangeMessage := none,
            accessToken := "sq0atp-newtok99", businessName := some "Acme",
            locations := [{ id := "L2", status := "INACTIVE" }, { id := "L1", status := "ACTIVE" }] }
          "client" "fresh-id").2.1 = .success p.name ∧
      (oauthCallback sampleStore1
          { errorParam := none, stateData := some "New Business",
            exchangeStatus := 200, exchangeMessage := none,
            accessToken := "sq0atp-newtok99", businessName := some "Acme",
            locations := [{ id := "L2", status := "INACTIVE" }, { id := "L1", status := "ACTIVE" }] }
          "client" "fresh-id").2.2 = [.tokenExchange, .getMerchant, .getLocations] :=
  C7_oauth_callback_success sampleStore1
    { errorParam := none, stateData := some "New Business",
      exchangeStatus := 200, exchangeMessage := none,
      accessToken := "sq0atp-newtok99", businessName := some "Acme",
      locations := [{ id := "L2", status := "INACTIVE" }, { id := "L1", status := "ACTIVE" }] }
    "client" "fresh-id" "New Business" rfl rfl rfl

theorem maskToken_of_lt (t : String) (h : t.length < 8) : maskToken t = "••••••••" := by
  simp [maskToken, h]

theorem maskToken_of_le (t : String) (h : 8 ≤ t.length) :
    maskToken t = strTake t 4 ++ "••••••••" ++ strTakeRight t 4 := by
  have h0 : ¬(t = "") := by
    intro hnil
    rw [hnil] at h
    exact absurd h (by decide)
  simp [maskToken, truthyStr, h0, Nat.not_lt.mpr h]

theorem strTake_append_strTakeRight (t : String) (h : t.length = 8) :
    strTake t 4 ++ strTakeRight t 4 = t := by
  apply String.ext
  rw [String.data_append]
  show t.data.take 4 ++ t.data.drop (t.data.length - 4) = t.data
  have hd : t.data.length = 8 := h
  rw [hd]
  exact List.take_append_drop 4 t.data

theorem maskToken_length_of_le (t : String) (h : 8 ≤ t.length) :
    (maskToken t).length = 16 := by
  have hd : 8 ≤ t.data.length := h
  have h1 : (strTake t 4).length = 4 := by
    show (t.data.take 4).length = 4
    rw [List.length_take]
    omega
  have h2 : (strTakeRight t 4).length = 4 := by
    show (t.data.drop (t.data.length - 4)).length = 4
    rw [List.length_drop]
    omega
  have hm : ("••••••••" : String).length = 8 := by decide
  rw [maskToken_of_le t h, String.length_append, String.length_append, h1, h2, hm]

theorem maskToken_eq_mask_iff (t : String) :
    maskToken t = "••••••••" ↔ t.length < 8 := by
  constructor
  · intro h
    by_contra hlt
    push_neg at hlt
    have hlen := maskToken_length_of_le t hlt
    rw [h] at hlen
    have hm : ("••••••••" : String).length = 8 := by decide
    rw [hm] at hlen
    exact absurd hlen (by decide)
  · exact maskToken_of_lt t

/-- C8: the profile listing returns, for every stored profile, a view
whose `accessTokenMasked` field is `maskToken` of the stored token — the
raw `accessToken` is not among the emitted fields — and `maskToken`
renders a token of length at least 8 as first four characters, fixed
mask, last four characters, and any shorter (or empty) token as the fixed
mask alone. -/
theorem C8_listing_masks_tokens :
    (∀ s : Store, (listProfiles s).2 = s.profiles.map (profileView s.activeId)) ∧
    (∀ (aid : String) (p : Profile),
        (profileView aid p).accessTokenMasked = maskToken p.accessToken) ∧
    (∀ t : String, 8 ≤ t.length →
        maskToken t = strTake t 4 ++ "••••••••" ++ strTakeRight t 4) ∧
    (∀ t : String, t.length < 8 → maskToken t = "••••••••") :=
  ⟨fun _ => rfl, fun _ _ => rfl, maskToken_of_le, maskToken_of_lt⟩

/-- Witness for C8 at a 15-character token and a 3-character token. -/
theorem C8_listing_masks_tokens_witness :
    maskToken "sq0atp-aaaa0001"
        = strTake "sq0atp-aaaa0001" 4 ++ "••••••••" ++ strTakeRight "sq0atp-aaaa0001" 4 ∧
    maskToken "abc" = "••••••••" :=
  ⟨C8_listing_masks_tokens.2.2.1 "sq0atp-aaaa0001" (by decide),
   C8_listing_masks_tokens.2.2.2 "abc" (by decide)⟩

/-- C9: for a token of length exactly 8 the rendered mask is first four
characters, fixed mask, last four characters, and those first four and
last four characters together are the whole token; the output degenerates
to the bare mask — revealing nothing — exactly for tokens shorter than 8
characters. -/
theorem C9_eight_char_token_revealed :
    (∀ t : String, t.length = 8 →
        maskToken t = strTake t 4 ++ "••••••••" ++ strTakeRight t 4 ∧
        strTake t 4 ++ strTakeRight t 4 = t) ∧
    (∀ t : String, maskToken t = "••••••••" ↔ t.length < 8) :=
  ⟨fun t h => ⟨maskToken_of_le t (le_of_eq h.symm), strTake_append_strTakeRight t h⟩,
   maskToken_eq_mask_iff⟩

/-- Witness for C9 at the 8-character token "abcd1234". -/
theorem C9_eight_char_token_revealed_witness :
    maskToken "abcd1234"
        = strTake "abcd1234" 4 ++ "••••••••" ++ strTakeRight "abcd1234" 4 ∧
    strTake "abcd1234" 4 ++ strTakeRight "abcd1234" 4 = "abcd1234" :=
  C9_eight_char_token_revealed.1 "abcd1234" (by decide)

theorem lookup_mem_keys (ss : List (String × Nat)) (t : String) (c : Nat)
    (h : ss.lookup t = some c) : (t, c) ∈ ss := by
  induction ss with
  | nil => simp [List.lookup] at h
  | cons kv rest ih =>
    obtain ⟨k, v⟩ := kv
    cases hk : (t == k) with
    | true =>
      simp [List.lookup, hk] at h
      have hkt : t = k := by simpa using hk
      simp [hkt, h]
    | false =>
      simp [List.lookup, hk] at h
      exact List.mem_cons_of_mem _ (ih h)

/-- C10: a token is accepted by `isValidSession` exactly when it is
present in the session map and at most 12 hours have elapsed since its
creation (stated for maps whose keys are the non-empty tokens
`createSession` mints); checking an expired token deletes it from the
map and reports it invalid; and `requireAuth` answers 401 without
passing the request on exactly when the token is not accepted, passing
it on with the map untouched when it is. -/
theorem C10_session_expiry_and_auth :
    (∀ (ss : List (String × Nat)) (now : Nat) (tok : Option String),
        (∀ kv ∈ ss, kv.1 ≠ "") →
        ((isValidSession ss now tok).1 = true ↔
          ∃ t c, tok = some t ∧ ss.lookup t = some c ∧ now - c ≤ SESSION_MS)) ∧
    (∀ (ss : List (String × Nat)) (now : Nat) (t : String) (c : Nat),
        t ≠ "" → ss.lookup t = some c → SESSION_MS < now - c →
        isValidSession ss now (some t) =
          (false, ss.eraseP (fun kv => kv.1 == t))) ∧
    (∀ (ss : List (String × Nat)) (now : Nat) (tok : Option String),
        (isValidSession ss now tok).1 = false →
        requireAuth ss now tok = (.unauthorized401, (isValidSession ss now tok).2)) ∧
    (∀ (ss : List (String × Nat)) (now : Nat) (tok : Option String),
        (isValidSession ss now tok).1 = true →
        requireAuth ss now tok = (.next, ss)) := by
  refine ⟨?_, ?_, ?_, ?_⟩
  · intro ss now tok hkeys
    constructor
    · intro hv
      cases tok with
      | none => simp [isValidSession] at hv
      | some t =>
        cases htr : truthyStr t with
        | false => simp [isValidSession, htr] at hv
        | true =>
          cases hl : ss.lookup t with
          | none => simp [isValidSession, htr, hl] at hv
          | some c =>
            by_cases hex : now - c > SESSION_MS
            · simp [isValidSession, htr, hl, hex] at hv
            · exact ⟨t, c, rfl, hl, by omega⟩
    · rintro ⟨t, c, rfl, hl, hle⟩
      have ht : t ≠ "" := hkeys (t, c) (lookup_mem_keys ss t c hl)
      have htr : truthyStr t = true := by simp [truthyStr, ht]
      simp [isValidSession, htr, hl, Nat.not_lt.mpr hle]
  · intro ss now t c ht hl hex
    have htr : truthyStr t = true := by simp [truthyStr, ht]
    simp [isValidSession, htr, hl, hex]
  · intro ss now tok hv
    simp [requireAuth, hv]
  · intro ss now tok hv
    have h2 : (isValidSession ss now tok).2 = ss := by
      cases tok with
      | none => rfl
      | some t =>
        cases htr : truthyStr t with
        | false => simp [isValidSession, htr]
        | true =>
          cases hl : ss.lookup t with
          | none => simp [isValidSession, htr, hl]
          | some c =>
            by_cases hex : now - c > SESSION_MS
            · exfalso
              simp [isValidSession, htr, hl, hex] at hv
            · simp [isValidSession, htr, hl, hex]
    simp [requireAuth, hv, h2]

/-- Witness for C10 at a one-session map: a fresh token is accepted and
passed through, an expired token is deleted, a missing token draws a
401. -/
theorem C10_session_expiry_and_auth_witness :
    ((isValidSession [("tok1", 0)] 1000 (some "tok1")).1 = true ↔
      ∃ t c, (some "tok1" : Option String) = some t ∧
        [("tok1", 0)].lookup t = some c ∧ 1000 - c ≤ SESSION_MS) ∧
    isValidSession [("tok1", 0)] (SESSION_MS + 10) (some "tok1") =
      (false, [("tok1", 0)].eraseP (fun kv => kv.1 == "tok1")) ∧
    requireAuth [("tok1", 0)] 1000 none =
      (.unauthorized401, (isValidSession [("tok1", 0)] 1000 none).2) ∧
    requireAuth [("tok1", 0)] 1000 (some "tok1") = (.next, [("tok1", 0)]) :=
  ⟨C10_session_expiry_and_auth.1 [("tok1", 0)] 1000 (some "tok1") (by decide),
   C10_session_expiry_and_auth.2.1 [("tok1", 0)] (SESSION_MS + 10) "tok1" 0
     (by decide) (by decide) (by decide),
   C10_session_expiry_and_auth.2.2.1 [("tok1", 0)] 1000 none (by decide),
   C10_session_expiry_and_auth.2.2.2 [("tok1", 0)] 1000 (some "tok1") (by decide)⟩

end SquareTerminal
